import Mathlib

/-! GNSE hardware abstraction layer: call-order model.

Shallow embedding of `Software/lib/GNSE_HAL/GNSE_hal.c` and of the sequencer
identifier enumerations of `Software/app/basic_lorawan/conf/app_conf.h`.

The functions of `GNSE_hal.c` only call into drivers and never inspect what a
driver did (apart from the two status codes tested by `GNSE_HAL_SysClk_Init`).
A function is therefore embedded as a transformer of the log of driver calls
made so far: every call statement appends one entry, in program order.
-/

namespace GNSE

/-! ## Data model -/

/-- Indicator channels passed to the LED driver in `GNSE_hal.c`. -/
inductive Led_TypeDef
  | LED_BLUE
  | LED_RED
  | LED_GREEN
  deriving DecidableEq, Repr

/-- Load switches passed to the load-switch driver in `GNSE_hal.c`. -/
inductive Load_Switch_TypeDef
  | LOAD_SWITCH_SENSORS
  deriving DecidableEq, Repr

/-- Delay arguments used in `GNSE_hal.c`; the value of the constant is defined
in a header outside the sources and is kept symbolic. -/
inductive Delay_Arg
  | LOAD_SWITCH_SENSORS_DELAY_MS
  deriving DecidableEq, Repr

/-- Every call statement that occurs in `GNSE_hal.c`, one constructor per
callee (arguments kept where the source passes one), plus an entry for an
invocation of `GNSE_HAL_Error_Handler` itself. -/
inductive Call
  | __HAL_RCC_LSEDRIVE_CONFIG
  | __HAL_PWR_VOLTAGESCALING_CONFIG
  | HAL_RCC_OscConfig
  | HAL_RCC_ClockConfig
  | GNSE_HAL_Error_Handler
  | GNSE_BSP_LED_Init (led : Led_TypeDef)
  | GNSE_BSP_LED_On (led : Led_TypeDef)
  | GNSE_BSP_LED_DeInit (led : Led_TypeDef)
  | GNSE_LPM_EnterLowPower
  | GNSE_BSP_LS_Init (ls : Load_Switch_TypeDef)
  | GNSE_BSP_LS_On (ls : Load_Switch_TypeDef)
  | GNSE_BSP_LS_Off (ls : Load_Switch_TypeDef)
  | GNSE_BSP_LS_DeInit (ls : Load_Switch_TypeDef)
  | HAL_Delay (ms : Delay_Arg)
  | GNSE_ACC_Init
  | GNSE_ACC_DeInit
  | SHTC3_probe
  | GNSE_BSP_Sensor_I2C1_Init
  | GNSE_BSP_Sensor_I2C1_DeInit
  | GNSE_BSP_Ext_Sensor_I2C2_Init
  | GNSE_BSP_Ext_Sensor_I2C2_DeInit
  | GNSE_Flash_Init
  | GNSE_Flash_DeInit
  | GNSE_BM_Init
  | GNSE_BM_DeInit
  | BUZZER_Init
  | BUZZER_DeInit
  deriving DecidableEq, Repr

/-- The log of calls made so far, oldest first. -/
abbrev Trace := List Call

/-- One call statement: the callee is entered and the log grows by one entry. -/
def call (x : Call) (tr : Trace) : Trace := tr ++ [x]

/-- The selection record `GNSE_HAL_Ctx_t`, with the six fields read by
`GNSE_HAL_Init` and `GNSE_HAL_DeInit`. -/
structure GNSE_HAL_Ctx_t where
  internal_sensors_init : Bool
  external_sensors_init : Bool
  flash_init : Bool
  bm_init : Bool
  leds_init : Bool
  buzzer_init : Bool
  deriving DecidableEq, Repr

/-- The selection with every flag cleared. -/
def noSelection : GNSE_HAL_Ctx_t :=
  ⟨false, false, false, false, false, false⟩

/-! ## Lifecycle controller -/

/-- `GNSE_HAL_Internal_Sensors_Init`: load switch init, load switch on, delay,
accelerometer init, humidity/temperature sensor probe. -/
def GNSE_HAL_Internal_Sensors_Init (tr : Trace) : Trace :=
  let tr := call (.GNSE_BSP_LS_Init .LOAD_SWITCH_SENSORS) tr
  let tr := call (.GNSE_BSP_LS_On .LOAD_SWITCH_SENSORS) tr
  let tr := call (.HAL_Delay .LOAD_SWITCH_SENSORS_DELAY_MS) tr
  let tr := call .GNSE_ACC_Init tr
  call .SHTC3_probe tr

/-- `GNSE_HAL_Internal_Sensors_DeInit`: accelerometer deinit, load switch off,
load switch deinit. -/
def GNSE_HAL_Internal_Sensors_DeInit (tr : Trace) : Trace :=
  let tr := call .GNSE_ACC_DeInit tr
  let tr := call (.GNSE_BSP_LS_Off .LOAD_SWITCH_SENSORS) tr
  call (.GNSE_BSP_LS_DeInit .LOAD_SWITCH_SENSORS) tr

/-- `GNSE_HAL_Init`: six independent `if` statements, in source order. -/
def GNSE_HAL_Init (gnse_inits : GNSE_HAL_Ctx_t) (tr : Trace) : Trace :=
  let tr :=
    if gnse_inits.internal_sensors_init then
      let tr := call .GNSE_BSP_Sensor_I2C1_Init tr
      GNSE_HAL_Internal_Sensors_Init tr
    else tr
  let tr :=
    if gnse_inits.external_sensors_init then
      call .GNSE_BSP_Ext_Sensor_I2C2_Init tr
    else tr
  let tr := if gnse_inits.flash_init then call .GNSE_Flash_Init tr else tr
  let tr := if gnse_inits.bm_init then call .GNSE_BM_Init tr else tr
  let tr :=
    if gnse_inits.leds_init then
      let tr := call (.GNSE_BSP_LED_Init .LED_BLUE) tr
      let tr := call (.GNSE_BSP_LED_Init .LED_RED) tr
      call (.GNSE_BSP_LED_Init .LED_GREEN) tr
    else tr
  if gnse_inits.buzzer_init then call .BUZZER_Init tr else tr

/-- `GNSE_HAL_DeInit`: six independent `if` statements, in source order. -/
def GNSE_HAL_DeInit (gnse_deinits : GNSE_HAL_Ctx_t) (tr : Trace) : Trace :=
  let tr :=
    if gnse_deinits.internal_sensors_init then
      let tr := call .GNSE_BSP_Sensor_I2C1_DeInit tr
      GNSE_HAL_Internal_Sensors_DeInit tr
    else tr
  let tr :=
    if gnse_deinits.external_sensors_init then
      call .GNSE_BSP_Ext_Sensor_I2C2_DeInit tr
    else tr
  let tr := if gnse_deinits.flash_init then call .GNSE_Flash_DeInit tr else tr
  let tr := if gnse_deinits.bm_init then call .GNSE_BM_DeInit tr else tr
  let tr :=
    if gnse_deinits.leds_init then
      let tr := call (.GNSE_BSP_LED_DeInit .LED_BLUE) tr
      let tr := call (.GNSE_BSP_LED_DeInit .LED_RED) tr
      call (.GNSE_BSP_LED_DeInit .LED_GREEN) tr
    else tr
  if gnse_deinits.buzzer_init then call .BUZZER_DeInit tr else tr

/-! ## Clock configurator -/

/-- Status codes returned by the two vendor clock routines; the type is
declared in a vendor header outside the sources. `GNSE_HAL_SysClk_Init` only
tests a status against `HAL_OK`. -/
inductive HAL_StatusTypeDef
  | HAL_OK
  | HAL_ERROR
  | HAL_BUSY
  | HAL_TIMEOUT
  deriving DecidableEq, Repr

/-- The two results returned by `GNSE_HAL_SysClk_Init`. -/
inductive GNSE_HAL_op_result_t
  | GNSE_HAL_OP_SUCCESS
  | GNSE_HAL_OP_FAIL
  deriving DecidableEq, Repr

/-- `GNSE_HAL_SysClk_Init`. The parameters `osc` and `clk` are what
`HAL_RCC_OscConfig` and `HAL_RCC_ClockConfig` return when they are called.
The two register macros and the two routines are logged in program order; the
function returns at the first status different from `HAL_OK`. The assignments
that fill the two configuration structures passed to the routines make no
call and decide no branch; they are not represented. -/
def GNSE_HAL_SysClk_Init (osc clk : HAL_StatusTypeDef) (tr : Trace) :
    GNSE_HAL_op_result_t × Trace :=
  let tr := call .__HAL_RCC_LSEDRIVE_CONFIG tr
  let tr := call .__HAL_PWR_VOLTAGESCALING_CONFIG tr
  let tr := call .HAL_RCC_OscConfig tr
  if osc ≠ .HAL_OK then (.GNSE_HAL_OP_FAIL, tr)
  else
    let tr := call .HAL_RCC_ClockConfig tr
    if clk ≠ .HAL_OK then (.GNSE_HAL_OP_FAIL, tr)
    else (.GNSE_HAL_OP_SUCCESS, tr)

/-! ## Fault handler -/

/-- What a callee of the fault handler does once entered: it comes back to the
handler (having worked or having failed; the handler reads no status), or it
keeps control for ever. -/
inductive Outcome
  | returns (ok : Bool)
  | never_returns
  deriving DecidableEq, Repr

/-- Program points of `GNSE_HAL_Error_Handler`: before each of its three call
statements, at the `while (1)` statement, inside a callee that keeps control,
and back in the caller. -/
inductive Handler_Pc
  | at_LED_Init
  | at_LED_On
  | at_EnterLowPower
  | at_while
  | in_callee
  | returned
  deriving DecidableEq, Repr

/-- Control point and call log of a running `GNSE_HAL_Error_Handler`. -/
structure Handler_State where
  pc : Handler_Pc
  calls : Trace
  deriving DecidableEq, Repr

/-- Where control is after a call statement whose successor is `next`. -/
def after_call (o : Outcome) (next : Handler_Pc) : Handler_Pc :=
  match o with
  | .returns _ => next
  | .never_returns => .in_callee

/-- The controlling expression of the loop that ends the handler: the
integer constant in `while (1)`. -/
def while_condition : Nat := 1

/-- One step of `GNSE_HAL_Error_Handler`. The three call statements follow one
another. At `while (1) { }` the controlling expression is tested: when it is
nonzero the empty body runs and control is at the loop again, when it is zero
control falls off the end of the function and is back in the caller. No
statement of the body is a `return`. -/
def GNSE_HAL_Error_Handler_step (o : Outcome) (s : Handler_State) : Handler_State :=
  match s.pc with
  | .at_LED_Init =>
      ⟨after_call o .at_LED_On, call (.GNSE_BSP_LED_Init .LED_RED) s.calls⟩
  | .at_LED_On =>
      ⟨after_call o .at_EnterLowPower, call (.GNSE_BSP_LED_On .LED_RED) s.calls⟩
  | .at_EnterLowPower =>
      ⟨after_call o .at_while, call .GNSE_LPM_EnterLowPower s.calls⟩
  | .at_while =>
      if while_condition ≠ 0 then ⟨.at_while, s.calls⟩ else ⟨.returned, s.calls⟩
  | .in_callee => s
  | .returned => s

/-- `GNSE_HAL_Error_Handler` entered with call log `tr`, after `n` steps;
`env i` is what the callee entered at step `i` does. -/
def GNSE_HAL_Error_Handler (env : Nat → Outcome) (tr : Trace) : Nat → Handler_State
  | 0 => ⟨.at_LED_Init, tr⟩
  | n + 1 => GNSE_HAL_Error_Handler_step (env n) (GNSE_HAL_Error_Handler env tr n)

/-- The three calls in the body of `GNSE_HAL_Error_Handler`, in program order. -/
def handler_calls : List Call :=
  [.GNSE_BSP_LED_Init .LED_RED, .GNSE_BSP_LED_On .LED_RED, .GNSE_LPM_EnterLowPower]

/-! ## Sequencer identifier spaces (`app_conf.h`) -/

/-- The enumeration `CFG_SEQ_Prio_Id_t`, enumerators in declaration order. -/
inductive CFG_SEQ_Prio_Id_t
  | CFG_SEQ_Prio_0
  | CFG_SEQ_Prio_NBR
  deriving DecidableEq, Repr, Fintype

/-- The enumeration `CFG_SEQ_Task_Id_t`, enumerators in declaration order. -/
inductive CFG_SEQ_Task_Id_t
  | CFG_SEQ_Task_LmHandlerProcess
  | CFG_SEQ_Task_LoRaSendOnTxTimerOrButtonEvent
  | CFG_SEQ_Task_NBR
  deriving DecidableEq, Repr, Fintype

/-- Value of a priority enumerator: no enumerator has an initialiser, so the
first is 0 and each next one is one more than its predecessor. -/
def CFG_SEQ_Prio_Id_t.val (x : CFG_SEQ_Prio_Id_t) : Nat := x.toCtorIdx

/-- Value of a task enumerator, by the same rule. -/
def CFG_SEQ_Task_Id_t.val (x : CFG_SEQ_Task_Id_t) : Nat := x.toCtorIdx

/-- All priority enumerators, in declaration order. -/
def prio_enumerators : List CFG_SEQ_Prio_Id_t :=
  [.CFG_SEQ_Prio_0, .CFG_SEQ_Prio_NBR]

/-- All task enumerators, in declaration order. -/
def task_enumerators : List CFG_SEQ_Task_Id_t :=
  [.CFG_SEQ_Task_LmHandlerProcess, .CFG_SEQ_Task_LoRaSendOnTxTimerOrButtonEvent,
   .CFG_SEQ_Task_NBR]

/-- The live priority identifiers: every enumerator but the count. -/
def live_prio : List CFG_SEQ_Prio_Id_t :=
  prio_enumerators.filter (fun x => x ≠ .CFG_SEQ_Prio_NBR)

/-- The live task identifiers: every enumerator but the count. -/
def live_task : List CFG_SEQ_Task_Id_t :=
  task_enumerators.filter (fun x => x ≠ .CFG_SEQ_Task_NBR)

/-! ## Sequences as the specification words them

The definitions below are not taken from the source: each writes down a
sequence exactly as the specification states it, to be compared with what
the embedded functions produce. -/

/-- Calls the specification names: those of the source, and a humidity sensor
deinit, for which the source has no callee. -/
inductive Spec_Call
  | code (c : Call)
  | humidity_sensor_deinit
  deriving DecidableEq, Repr

/-- Specified tear-down order: the selected families from the sixth to the
first (audible alert, indicators, battery monitor, storage, external bus,
internal sensors), the three indicator channels kept in the order blue, red,
green, and the internal-sensor steps of bring-up undone one by one from the
last to the first (the settling delay has nothing to undo). -/
def spec_tear_down (c : GNSE_HAL_Ctx_t) : List Spec_Call :=
  (if c.buzzer_init then [.code .BUZZER_DeInit] else []) ++
  (if c.leds_init then
    [.code (.GNSE_BSP_LED_DeInit .LED_BLUE), .code (.GNSE_BSP_LED_DeInit .LED_RED),
     .code (.GNSE_BSP_LED_DeInit .LED_GREEN)]
   else []) ++
  (if c.bm_init then [.code .GNSE_BM_DeInit] else []) ++
  (if c.flash_init then [.code .GNSE_Flash_DeInit] else []) ++
  (if c.external_sensors_init then [.code .GNSE_BSP_Ext_Sensor_I2C2_DeInit] else []) ++
  (if c.internal_sensors_init then
    [.humidity_sensor_deinit, .code .GNSE_ACC_DeInit,
     .code (.GNSE_BSP_LS_Off .LOAD_SWITCH_SENSORS),
     .code (.GNSE_BSP_LS_DeInit .LOAD_SWITCH_SENSORS),
     .code .GNSE_BSP_Sensor_I2C1_DeInit]
   else [])

/-- What undoes a bring-up call according to the specification: init and
deinit are paired, on and off are paired, the probe of the humidity sensor is
undone by the humidity sensor deinit, the delay is ignored. -/
def spec_inverse : Call → Option Spec_Call
  | .GNSE_BSP_Sensor_I2C1_Init => some (.code .GNSE_BSP_Sensor_I2C1_DeInit)
  | .GNSE_BSP_LS_Init ls => some (.code (.GNSE_BSP_LS_DeInit ls))
  | .GNSE_BSP_LS_On ls => some (.code (.GNSE_BSP_LS_Off ls))
  | .GNSE_ACC_Init => some (.code .GNSE_ACC_DeInit)
  | .SHTC3_probe => some .humidity_sensor_deinit
  | .GNSE_BSP_Ext_Sensor_I2C2_Init => some (.code .GNSE_BSP_Ext_Sensor_I2C2_DeInit)
  | .GNSE_Flash_Init => some (.code .GNSE_Flash_DeInit)
  | .GNSE_BM_Init => some (.code .GNSE_BM_DeInit)
  | .GNSE_BSP_LED_Init led => some (.code (.GNSE_BSP_LED_DeInit led))
  | .BUZZER_Init => some (.code .BUZZER_DeInit)
  | _ => none

/-- Specified bring-up order: the selected families from the first to the
sixth; internal sensors are bus init, load switch on, settling delay,
accelerometer init, humidity sensor init. -/
def spec_bring_up (c : GNSE_HAL_Ctx_t) : List Call :=
  (if c.internal_sensors_init then
    [.GNSE_BSP_Sensor_I2C1_Init, .GNSE_BSP_LS_On .LOAD_SWITCH_SENSORS,
     .HAL_Delay .LOAD_SWITCH_SENSORS_DELAY_MS, .GNSE_ACC_Init, .SHTC3_probe]
   else []) ++
  (if c.external_sensors_init then [.GNSE_BSP_Ext_Sensor_I2C2_Init] else []) ++
  (if c.flash_init then [.GNSE_Flash_Init] else []) ++
  (if c.bm_init then [.GNSE_BM_Init] else []) ++
  (if c.leds_init then
    [.GNSE_BSP_LED_Init .LED_BLUE, .GNSE_BSP_LED_Init .LED_RED,
     .GNSE_BSP_LED_Init .LED_GREEN]
   else []) ++
  (if c.buzzer_init then [.BUZZER_Init] else [])

/-- The selection of the worked example: internal sensors and storage. -/
def example_selection : GNSE_HAL_Ctx_t :=
  ⟨true, false, true, false, false, false⟩

/-- Specified bring-up sequence of the worked example: bus-init,
load-switch-on, delay, accel-init, humidity-init, storage-init. -/
def spec_example_bring_up : List Call :=
  [.GNSE_BSP_Sensor_I2C1_Init, .GNSE_BSP_LS_On .LOAD_SWITCH_SENSORS,
   .HAL_Delay .LOAD_SWITCH_SENSORS_DELAY_MS, .GNSE_ACC_Init, .SHTC3_probe,
   .GNSE_Flash_Init]

/-- Specified tear-down sequence of the worked example: storage-deinit,
humidity-deinit, accel-deinit, load-switch-off, bus-deinit. -/
def spec_example_tear_down : List Spec_Call :=
  [.code .GNSE_Flash_DeInit, .humidity_sensor_deinit, .code .GNSE_ACC_DeInit,
   .code (.GNSE_BSP_LS_Off .LOAD_SWITCH_SENSORS), .code .GNSE_BSP_Sensor_I2C1_DeInit]

/-- Whether an indicator channel is initialised after the calls of a log: its
latest init or deinit entry, if any, is an init. -/
def led_initialised (led : Led_TypeDef) (tr : Trace) : Bool :=
  tr.foldl
    (fun b x =>
      if x = .GNSE_BSP_LED_Init led then true
      else if x = .GNSE_BSP_LED_DeInit led then false
      else b)
    false

/-- Specified calls of the fault handler: the red channel is initialised if it
is not initialised already, then set active, then the low-power primitive is
entered. -/
def spec_handler_calls (red_initialised : Bool) : List Call :=
  (if red_initialised then [] else [.GNSE_BSP_LED_Init .LED_RED]) ++
  [.GNSE_BSP_LED_On .LED_RED, .GNSE_LPM_EnterLowPower]

/-! ## Auxiliary notions used to state what the source does -/

/-- The call that undoes a bring-up call, among the callees of the source:
init and deinit are paired, on and off are paired. The delay and the probe of
the humidity sensor have no counterpart in the source. -/
def inverse : Call → Option Call
  | .GNSE_BSP_Sensor_I2C1_Init => some .GNSE_BSP_Sensor_I2C1_DeInit
  | .GNSE_BSP_LS_Init ls => some (.GNSE_BSP_LS_DeInit ls)
  | .GNSE_BSP_LS_On ls => some (.GNSE_BSP_LS_Off ls)
  | .GNSE_ACC_Init => some .GNSE_ACC_DeInit
  | .GNSE_BSP_Ext_Sensor_I2C2_Init => some .GNSE_BSP_Ext_Sensor_I2C2_DeInit
  | .GNSE_Flash_Init => some .GNSE_Flash_DeInit
  | .GNSE_BM_Init => some .GNSE_BM_DeInit
  | .GNSE_BSP_LED_Init led => some (.GNSE_BSP_LED_DeInit led)
  | .BUZZER_Init => some .BUZZER_DeInit
  | _ => none

/-- Calls on the sensor load switch or on an internal sensor driver
(accelerometer, humidity sensor). -/
def on_internal_bus : Call → Bool
  | .GNSE_BSP_LS_Init _ => true
  | .GNSE_BSP_LS_On _ => true
  | .GNSE_BSP_LS_Off _ => true
  | .GNSE_BSP_LS_DeInit _ => true
  | .GNSE_ACC_Init => true
  | .GNSE_ACC_DeInit => true
  | .SHTC3_probe => true
  | _ => false

/-- The calls of one bring-up, family by family in the order of the `if`
statements of `GNSE_HAL_Init`. -/
def bring_up_calls (c : GNSE_HAL_Ctx_t) : List Call :=
  (if c.internal_sensors_init then
    [.GNSE_BSP_Sensor_I2C1_Init, .GNSE_BSP_LS_Init .LOAD_SWITCH_SENSORS,
     .GNSE_BSP_LS_On .LOAD_SWITCH_SENSORS, .HAL_Delay .LOAD_SWITCH_SENSORS_DELAY_MS,
     .GNSE_ACC_Init, .SHTC3_probe]
   else []) ++
  (if c.external_sensors_init then [.GNSE_BSP_Ext_Sensor_I2C2_Init] else []) ++
  (if c.flash_init then [.GNSE_Flash_Init] else []) ++
  (if c.bm_init then [.GNSE_BM_Init] else []) ++
  (if c.leds_init then
    [.GNSE_BSP_LED_Init .LED_BLUE, .GNSE_BSP_LED_Init .LED_RED,
     .GNSE_BSP_LED_Init .LED_GREEN]
   else []) ++
  (if c.buzzer_init then [.BUZZER_Init] else [])

/-! ## Helper lemmas -/

/-- A bring-up only appends to the log, and what it appends depends on the
selection alone. -/
theorem GNSE_HAL_Init_append (c : GNSE_HAL_Ctx_t) (tr : Trace) :
    GNSE_HAL_Init c tr = tr ++ GNSE_HAL_Init c [] := by
  rcases c with ⟨a, b, d, e, f, g⟩
  cases a <;> cases b <;> cases d <;> cases e <;> cases f <;> cases g <;>
    simp [GNSE_HAL_Init, GNSE_HAL_Internal_Sensors_Init, call]

/-- A tear-down only appends to the log, and what it appends depends on the
selection alone. -/
theorem GNSE_HAL_DeInit_append (c : GNSE_HAL_Ctx_t) (tr : Trace) :
    GNSE_HAL_DeInit c tr = tr ++ GNSE_HAL_DeInit c [] := by
  rcases c with ⟨a, b, d, e, f, g⟩
  cases a <;> cases b <;> cases d <;> cases e <;> cases f <;> cases g <;>
    simp [GNSE_HAL_DeInit, GNSE_HAL_Internal_Sensors_DeInit, call]

/-- The calls of a bring-up started on an empty log. -/
theorem GNSE_HAL_Init_nil (c : GNSE_HAL_Ctx_t) :
    GNSE_HAL_Init c [] = bring_up_calls c := by
  rcases c with ⟨a, b, d, e, f, g⟩
  cases a <;> cases b <;> cases d <;> cases e <;> cases f <;> cases g <;> rfl

/-! ## Lifecycle controller: tear-down against bring-up -/

/-- C1, as stated, fails: for the selection storage and battery monitor the
source tears down storage first and the battery monitor second, where the
stated order (families from the sixth to the first) is the opposite; and for
the selection internal sensors alone the source does not produce the bring-up
read backwards with each call undone. -/
theorem C1_counterexample :
    spec_tear_down ⟨true, false, true, true, false, false⟩
        = ((GNSE_HAL_Init ⟨true, false, true, true, false, false⟩ []).filterMap
            spec_inverse).reverse ∧
    (GNSE_HAL_DeInit ⟨false, false, true, true, false, false⟩ []).map Spec_Call.code
        = [.code .GNSE_Flash_DeInit, .code .GNSE_BM_DeInit] ∧
    spec_tear_down ⟨false, false, true, true, false, false⟩
        = [.code .GNSE_BM_DeInit, .code .GNSE_Flash_DeInit] ∧
    (GNSE_HAL_DeInit ⟨false, false, true, true, false, false⟩ []).map Spec_Call.code
        ≠ spec_tear_down ⟨false, false, true, true, false, false⟩ ∧
    (GNSE_HAL_DeInit ⟨true, false, false, false, false, false⟩ []).map Spec_Call.code
        ≠ spec_tear_down ⟨true, false, false, false, false, false⟩ := by
  decide

/-- C1, amended: for every selection, tear-down goes through the selected
families in the same order as bring-up, first to sixth. The release of the
internal bus aside, its calls are: when internal sensors are selected, the
calls undoing the steps of `GNSE_HAL_Internal_Sensors_Init` from the last to
the first (accelerometer deinit, load switch off, load switch deinit; the
delay and the humidity probe have no counterpart), and then the calls undoing
the bring-up calls of the other selected families, in bring-up order
(external bus, storage, battery monitor, indicators blue, red, green, audible
alert). The internal bus is released once when internal sensors are selected
and not at all otherwise. -/
theorem C1_tear_down_mirrors_bring_up_per_family (c : GNSE_HAL_Ctx_t) :
    (GNSE_HAL_DeInit c []).filter (fun x => x ≠ .GNSE_BSP_Sensor_I2C1_DeInit)
      = (if c.internal_sensors_init then
          ((GNSE_HAL_Internal_Sensors_Init []).filterMap inverse).reverse
         else []) ++
        (GNSE_HAL_Init
          ⟨false, c.external_sensors_init, c.flash_init, c.bm_init, c.leds_init,
            c.buzzer_init⟩ []).filterMap inverse
    ∧
    (GNSE_HAL_DeInit c []).filter (fun x => x ≠ .GNSE_BSP_Sensor_I2C1_DeInit)
      = (if c.internal_sensors_init then
          [.GNSE_ACC_DeInit, .GNSE_BSP_LS_Off .LOAD_SWITCH_SENSORS,
           .GNSE_BSP_LS_DeInit .LOAD_SWITCH_SENSORS]
         else []) ++
        (if c.external_sensors_init then [.GNSE_BSP_Ext_Sensor_I2C2_DeInit] else []) ++
        (if c.flash_init then [.GNSE_Flash_DeInit] else []) ++
        (if c.bm_init then [.GNSE_BM_DeInit] else []) ++
        (if c.leds_init then
          [.GNSE_BSP_LED_DeInit .LED_BLUE, .GNSE_BSP_LED_DeInit .LED_RED,
           .GNSE_BSP_LED_DeInit .LED_GREEN]
         else []) ++
        (if c.buzzer_init then [.BUZZER_DeInit] else [])
    ∧
    (GNSE_HAL_DeInit c []).count .GNSE_BSP_Sensor_I2C1_DeInit
      = (if c.internal_sensors_init then 1 else 0) := by
  rcases c with ⟨a, b, d, e, f, g⟩
  cases a <;> cases b <;> cases d <;> cases e <;> cases f <;> cases g <;> decide

/-- C2, the source at the selection internal sensors alone: the release of the
internal bus is the first call of tear-down, ahead of the accelerometer deinit
and of the load switch being powered off. -/
theorem C2_bus_released_first :
    GNSE_HAL_DeInit ⟨true, false, false, false, false, false⟩ []
      = [.GNSE_BSP_Sensor_I2C1_DeInit, .GNSE_ACC_DeInit,
         .GNSE_BSP_LS_Off .LOAD_SWITCH_SENSORS,
         .GNSE_BSP_LS_DeInit .LOAD_SWITCH_SENSORS] := by
  decide

/-! ## Lifecycle controller: bring-up -/

/-- C3, as stated, fails: for the selection internal sensors alone the source
also calls the load switch init, between the bus init and the load switch
being powered on, so its sequence is not the stated one. -/
theorem C3_counterexample :
    GNSE_HAL_Init ⟨true, false, false, false, false, false⟩ []
      = [.GNSE_BSP_Sensor_I2C1_Init, .GNSE_BSP_LS_Init .LOAD_SWITCH_SENSORS,
         .GNSE_BSP_LS_On .LOAD_SWITCH_SENSORS, .HAL_Delay .LOAD_SWITCH_SENSORS_DELAY_MS,
         .GNSE_ACC_Init, .SHTC3_probe] ∧
    GNSE_HAL_Init ⟨true, false, false, false, false, false⟩ []
      ≠ spec_bring_up ⟨true, false, false, false, false, false⟩ := by
  decide

/-- C3, amended: for every selection and every earlier log, bring-up appends
the concatenation, in the fixed order first to sixth, of the steps of the
selected families and nothing for an unset flag, where the internal-sensor
steps are bus init, load switch init, load switch on, settling delay,
accelerometer init, humidity sensor probe. A second bring-up with the same
selection appends the same sequence again, and in that sequence the bus init
comes before every load-switch call and every internal-sensor call. -/
theorem C3_bring_up_fixed_order (c : GNSE_HAL_Ctx_t) (tr : Trace) :
    GNSE_HAL_Init c tr = tr ++ bring_up_calls c ∧
    GNSE_HAL_Init c (GNSE_HAL_Init c tr) = tr ++ bring_up_calls c ++ bring_up_calls c ∧
    ∀ (pre : List Call) (x : Call) (post : List Call),
      bring_up_calls c = pre ++ x :: post → on_internal_bus x = true →
        Call.GNSE_BSP_Sensor_I2C1_Init ∈ pre := by
  have h1 : ∀ t, GNSE_HAL_Init c t = t ++ bring_up_calls c := by
    intro t
    rw [GNSE_HAL_Init_append, GNSE_HAL_Init_nil]
  refine ⟨h1 tr, by rw [h1, h1], ?_⟩
  intro pre x post hsplit hx
  by_cases hi : c.internal_sensors_init = true
  · -- the sequence starts with the bus init
    have hhead : ∃ rest, bring_up_calls c = .GNSE_BSP_Sensor_I2C1_Init :: rest := by
      simp [bring_up_calls, hi]
    obtain ⟨rest, hrest⟩ := hhead
    rw [hrest] at hsplit
    cases pre with
    | nil =>
        simp only [List.nil_append, List.cons.injEq] at hsplit
        rw [← hsplit.1] at hx
        simp [on_internal_bus] at hx
    | cons p ps =>
        simp only [List.cons_append, List.cons.injEq] at hsplit
        rw [← hsplit.1]
        exact List.mem_cons_self _ _
  · -- no call of the sequence is on the internal bus
    have hmem : x ∈ bring_up_calls c := by
      rw [hsplit]
      simp
    have hnone : ∀ y ∈ bring_up_calls c, on_internal_bus y = false := by
      rcases c with ⟨a, b, d, e, f, g⟩
      simp only [Bool.not_eq_true] at hi
      subst hi
      cases b <;> cases d <;> cases e <;> cases f <;> cases g <;> decide
    rw [hnone x hmem] at hx
    exact absurd hx (by decide)

/-- C3, amended, at the selection internal sensors alone: the bus init comes
before the load switch being powered on. -/
theorem C3_bring_up_fixed_order_witness :
    Call.GNSE_BSP_Sensor_I2C1_Init ∈
      [Call.GNSE_BSP_Sensor_I2C1_Init, .GNSE_BSP_LS_Init .LOAD_SWITCH_SENSORS] :=
  (C3_bring_up_fixed_order ⟨true, false, false, false, false, false⟩ []).2.2
    [.GNSE_BSP_Sensor_I2C1_Init, .GNSE_BSP_LS_Init .LOAD_SWITCH_SENSORS]
    (.GNSE_BSP_LS_On .LOAD_SWITCH_SENSORS)
    [.HAL_Delay .LOAD_SWITCH_SENSORS_DELAY_MS, .GNSE_ACC_Init, .SHTC3_probe]
    (by decide) (by decide)

/-! ## Clock configurator -/

/-- C4, as stated, fails: with the oscillator step failing, and with the
bus-switch step failing, `GNSE_HAL_SysClk_Init` returns the failure result
and no call of its log is an invocation of the fault handler. -/
theorem C4_counterexample :
    GNSE_HAL_SysClk_Init .HAL_ERROR .HAL_OK []
      = (.GNSE_HAL_OP_FAIL,
         [.__HAL_RCC_LSEDRIVE_CONFIG, .__HAL_PWR_VOLTAGESCALING_CONFIG, .HAL_RCC_OscConfig]) ∧
    Call.GNSE_HAL_Error_Handler ∉ (GNSE_HAL_SysClk_Init .HAL_ERROR .HAL_OK []).2 ∧
    Call.GNSE_HAL_Error_Handler ∉ (GNSE_HAL_SysClk_Init .HAL_OK .HAL_ERROR []).2 := by
  decide

/-- C4, amended: `GNSE_HAL_SysClk_Init` never invokes the fault handler. When
the oscillator step fails it returns the failure result to its caller and the
bus-switch step is not reached; when the bus-switch step fails it returns the
failure result to its caller as well. -/
theorem C4_clock_failure_is_returned (osc clk : HAL_StatusTypeDef) :
    Call.GNSE_HAL_Error_Handler ∉ (GNSE_HAL_SysClk_Init osc clk []).2 ∧
    (osc ≠ .HAL_OK →
      (GNSE_HAL_SysClk_Init osc clk []).1 = .GNSE_HAL_OP_FAIL ∧
      Call.HAL_RCC_ClockConfig ∉ (GNSE_HAL_SysClk_Init osc clk []).2) ∧
    (clk ≠ .HAL_OK → (GNSE_HAL_SysClk_Init osc clk []).1 = .GNSE_HAL_OP_FAIL) := by
  cases osc <;> cases clk <;> decide

/-- C4, amended, with the oscillator step reporting `HAL_ERROR`. -/
theorem C4_clock_failure_is_returned_witness :
    (GNSE_HAL_SysClk_Init .HAL_ERROR .HAL_OK []).1 = .GNSE_HAL_OP_FAIL ∧
    Call.HAL_RCC_ClockConfig ∉ (GNSE_HAL_SysClk_Init .HAL_ERROR .HAL_OK []).2 :=
  (C4_clock_failure_is_returned .HAL_ERROR .HAL_OK).2.1 (by decide)

/-- C5: for every pair of outcomes of the two hardware steps,
`GNSE_HAL_SysClk_Init` returns success exactly when both steps report
`HAL_OK` and failure otherwise; the oscillator step is attempted once, the
clock-tree switch at most once, and the clock-tree switch is attempted
exactly when the oscillator step reported `HAL_OK`. -/
theorem C5_clock_pass_fail (osc clk : HAL_StatusTypeDef) :
    ((GNSE_HAL_SysClk_Init osc clk []).1 = .GNSE_HAL_OP_SUCCESS ↔
      (osc = .HAL_OK ∧ clk = .HAL_OK)) ∧
    ((GNSE_HAL_SysClk_Init osc clk []).1 = .GNSE_HAL_OP_FAIL ↔
      ¬ (osc = .HAL_OK ∧ clk = .HAL_OK)) ∧
    (GNSE_HAL_SysClk_Init osc clk []).2.count .HAL_RCC_OscConfig = 1 ∧
    (GNSE_HAL_SysClk_Init osc clk []).2.count .HAL_RCC_ClockConfig ≤ 1 ∧
    (Call.HAL_RCC_ClockConfig ∈ (GNSE_HAL_SysClk_Init osc clk []).2 ↔ osc = .HAL_OK) := by
  cases osc <;> cases clk <;> decide

/-! ## Fault handler -/

/-- Where the handler can be, and what it has logged there: at each of its
program points the log is the entry log followed by the calls made so far. -/
theorem GNSE_HAL_Error_Handler_invariant (env : Nat → Outcome) (tr : Trace) (n : Nat) :
    ((GNSE_HAL_Error_Handler env tr n).pc = .at_LED_Init ∧
      (GNSE_HAL_Error_Handler env tr n).calls = tr ++ handler_calls.take 0) ∨
    ((GNSE_HAL_Error_Handler env tr n).pc = .at_LED_On ∧
      (GNSE_HAL_Error_Handler env tr n).calls = tr ++ handler_calls.take 1) ∨
    ((GNSE_HAL_Error_Handler env tr n).pc = .at_EnterLowPower ∧
      (GNSE_HAL_Error_Handler env tr n).calls = tr ++ handler_calls.take 2) ∨
    ((GNSE_HAL_Error_Handler env tr n).pc = .at_while ∧
      (GNSE_HAL_Error_Handler env tr n).calls = tr ++ handler_calls.take 3) ∨
    ((GNSE_HAL_Error_Handler env tr n).pc = .in_callee ∧
      ∃ k, (GNSE_HAL_Error_Handler env tr n).calls = tr ++ handler_calls.take k) := by
  induction n with
  | zero => left; simp [GNSE_HAL_Error_Handler]
  | succ n ih =>
      rw [GNSE_HAL_Error_Handler]
      generalize GNSE_HAL_Error_Handler env tr n = s at ih
      obtain ⟨pc, calls⟩ := s
      simp only at ih
      rcases ih with ⟨h, hc⟩ | ⟨h, hc⟩ | ⟨h, hc⟩ | ⟨h, hc⟩ | ⟨h, k, hc⟩ <;> subst h <;> subst hc
      · cases env n
        · right; left
          simp [GNSE_HAL_Error_Handler_step, after_call, call, handler_calls]
        · right; right; right; right
          exact ⟨rfl, 1, by simp [GNSE_HAL_Error_Handler_step, call, handler_calls]⟩
      · cases env n
        · right; right; left
          simp [GNSE_HAL_Error_Handler_step, after_call, call, handler_calls]
        · right; right; right; right
          exact ⟨rfl, 2, by simp [GNSE_HAL_Error_Handler_step, call, handler_calls]⟩
      · cases env n
        · right; right; right; left
          simp [GNSE_HAL_Error_Handler_step, after_call, call, handler_calls]
        · right; right; right; right
          exact ⟨rfl, 3, by simp [GNSE_HAL_Error_Handler_step, call, handler_calls]⟩
      · right; right; right; left
        simp [GNSE_HAL_Error_Handler_step, while_condition]
      · right; right; right; right
        exact ⟨rfl, k, rfl⟩

/-- When every callee comes back, three steps take the handler to its loop
with the three calls logged, and it is there at every later step. -/
theorem GNSE_HAL_Error_Handler_reaches_loop (f : Nat → Bool) (tr : Trace) (n : Nat) :
    GNSE_HAL_Error_Handler (fun i => .returns (f i)) tr (n + 3)
      = ⟨.at_while, tr ++ handler_calls⟩ := by
  induction n with
  | zero =>
      simp [GNSE_HAL_Error_Handler, GNSE_HAL_Error_Handler_step, after_call, call,
        handler_calls]
  | succ n ih =>
      rw [show n + 1 + 3 = (n + 3) + 1 from by omega, GNSE_HAL_Error_Handler, ih]
      simp [GNSE_HAL_Error_Handler_step, while_condition]

/-- C6: whatever its three callees do (come back having worked, come back
having failed, or keep control), the fault handler is at no step back in its
caller; and when all three come back, whatever their success, it is in its
endless loop from the third step on. -/
theorem C6_handler_never_returns (env : Nat → Outcome) (tr : Trace) (n : Nat) :
    (GNSE_HAL_Error_Handler env tr n).pc ≠ .returned ∧
    ∀ f : Nat → Bool,
      (GNSE_HAL_Error_Handler (fun i => .returns (f i)) tr (n + 3)).pc = .at_while := by
  constructor
  · rcases GNSE_HAL_Error_Handler_invariant env tr n with
      h | h | h | h | h <;> rw [h.1] <;> decide
  · intro f
    rw [GNSE_HAL_Error_Handler_reaches_loop]

/-- C7, as stated, fails: after a bring-up of the indicators the red channel
is initialised, and the handler calls its init all the same, where the stated
sequence leaves the init out for a channel that is initialised already. -/
theorem C7_counterexample :
    led_initialised .LED_RED (GNSE_HAL_Init ⟨false, false, false, false, true, false⟩ [])
      = true ∧
    (GNSE_HAL_Error_Handler (fun _ => .returns true)
        (GNSE_HAL_Init ⟨false, false, false, false, true, false⟩ []) 3).calls
      = GNSE_HAL_Init ⟨false, false, false, false, true, false⟩ [] ++
        [.GNSE_BSP_LED_Init .LED_RED, .GNSE_BSP_LED_On .LED_RED, .GNSE_LPM_EnterLowPower] ∧
    (GNSE_HAL_Error_Handler (fun _ => .returns true)
        (GNSE_HAL_Init ⟨false, false, false, false, true, false⟩ []) 3).calls
      ≠ GNSE_HAL_Init ⟨false, false, false, false, true, false⟩ [] ++
        spec_handler_calls
          (led_initialised .LED_RED
            (GNSE_HAL_Init ⟨false, false, false, false, true, false⟩ [])) := by
  decide

/-- C7, amended: the calls made by the fault handler are, in this order, the
init of the red indicator channel (made whether or not the channel is
initialised already), setting the red indicator active, and the hand-off to
the low-power primitive. At every step its log is the entry log followed by
the first few of these three calls, so it makes no other call; when the
callees come back all three are made, and none is added during the final
wait. -/
theorem C7_handler_calls (env : Nat → Outcome) (tr : Trace) (n : Nat) :
    (∃ k, (GNSE_HAL_Error_Handler env tr n).calls
        = tr ++ List.take k
            [.GNSE_BSP_LED_Init .LED_RED, .GNSE_BSP_LED_On .LED_RED,
             .GNSE_LPM_EnterLowPower]) ∧
    ∀ f : Nat → Bool,
      (GNSE_HAL_Error_Handler (fun i => .returns (f i)) tr (n + 3)).calls
        = tr ++ [.GNSE_BSP_LED_Init .LED_RED, .GNSE_BSP_LED_On .LED_RED,
                 .GNSE_LPM_EnterLowPower] := by
  constructor
  · rcases GNSE_HAL_Error_Handler_invariant env tr n with
      h | h | h | h | ⟨_, k, h⟩
    · exact ⟨0, h.2⟩
    · exact ⟨1, h.2⟩
    · exact ⟨2, h.2⟩
    · exact ⟨3, h.2⟩
    · exact ⟨k, h⟩
  · intro f
    rw [GNSE_HAL_Error_Handler_reaches_loop]
    rfl

/-! ## Lifecycle controller: the worked example and the empty selection -/

/-- C8, as stated, fails: for the selection internal sensors and storage the
tear-down of the source is bus deinit, accelerometer deinit, load switch off,
load switch deinit, storage deinit, which is not the stated sequence, and the
bring-up of the source has seven calls, the load switch init among them, which
is not the stated sequence either. -/
theorem C8_counterexample :
    GNSE_HAL_DeInit example_selection []
      = [.GNSE_BSP_Sensor_I2C1_DeInit, .GNSE_ACC_DeInit,
         .GNSE_BSP_LS_Off .LOAD_SWITCH_SENSORS, .GNSE_BSP_LS_DeInit .LOAD_SWITCH_SENSORS,
         .GNSE_Flash_DeInit] ∧
    (GNSE_HAL_DeInit example_selection []).map Spec_Call.code ≠ spec_example_tear_down ∧
    Spec_Call.humidity_sensor_deinit ∉
      (GNSE_HAL_DeInit example_selection []).map Spec_Call.code ∧
    GNSE_HAL_Init example_selection [] ≠ spec_example_bring_up := by
  decide

/-- C8, amended: for every selection with internal sensors set, the tear-down
sequence contains the accelerometer deinit, directly followed by the load
switch being powered off and by the load switch deinit, and it contains the
bus release. For the selection internal sensors and storage the bring-up
sequence is exactly bus init, load switch init, load switch on, delay,
accelerometer init, humidity probe, storage init, and the tear-down sequence,
the bus release aside, is exactly accelerometer deinit, load switch off, load
switch deinit, storage deinit. -/
theorem C8_internal_sensor_tear_down (c : GNSE_HAL_Ctx_t) :
    (c.internal_sensors_init = true →
      (∃ pre post : List Call,
        GNSE_HAL_DeInit c []
          = pre ++ [.GNSE_ACC_DeInit, .GNSE_BSP_LS_Off .LOAD_SWITCH_SENSORS,
                    .GNSE_BSP_LS_DeInit .LOAD_SWITCH_SENSORS] ++ post) ∧
      Call.GNSE_BSP_Sensor_I2C1_DeInit ∈ GNSE_HAL_DeInit c []) ∧
    GNSE_HAL_Init example_selection []
      = [.GNSE_BSP_Sensor_I2C1_Init, .GNSE_BSP_LS_Init .LOAD_SWITCH_SENSORS,
         .GNSE_BSP_LS_On .LOAD_SWITCH_SENSORS, .HAL_Delay .LOAD_SWITCH_SENSORS_DELAY_MS,
         .GNSE_ACC_Init, .SHTC3_probe, .GNSE_Flash_Init] ∧
    (GNSE_HAL_DeInit example_selection []).filter
        (fun x => x ≠ .GNSE_BSP_Sensor_I2C1_DeInit)
      = [.GNSE_ACC_DeInit, .GNSE_BSP_LS_Off .LOAD_SWITCH_SENSORS,
         .GNSE_BSP_LS_DeInit .LOAD_SWITCH_SENSORS, .GNSE_Flash_DeInit] := by
  refine ⟨?_, by decide, by decide⟩
  intro h
  rcases c with ⟨a, b, d, e, f, g⟩
  simp only at h
  subst h
  cases b <;> cases d <;> cases e <;> cases f <;> cases g <;>
    exact ⟨⟨[.GNSE_BSP_Sensor_I2C1_DeInit], _, rfl⟩, by decide⟩

/-- C8, amended, at the selection internal sensors and storage. -/
theorem C8_internal_sensor_tear_down_witness :
    example_selection.internal_sensors_init = true ∧
    ((∃ pre post : List Call,
        GNSE_HAL_DeInit example_selection []
          = pre ++ [.GNSE_ACC_DeInit, .GNSE_BSP_LS_Off .LOAD_SWITCH_SENSORS,
                    .GNSE_BSP_LS_DeInit .LOAD_SWITCH_SENSORS] ++ post) ∧
      Call.GNSE_BSP_Sensor_I2C1_DeInit ∈ GNSE_HAL_DeInit example_selection []) :=
  ⟨rfl, (C8_internal_sensor_tear_down example_selection).1 rfl⟩

/-- C9: whatever was logged before, bring-up performs no driver call exactly
for the empty selection, and so does tear-down; for every selection with a
flag set, and only for those, each of them performs at least one call. -/
theorem C9_no_call_iff_empty_selection (c : GNSE_HAL_Ctx_t) (tr : Trace) :
    (GNSE_HAL_Init c tr = tr ↔ c = noSelection) ∧
    (GNSE_HAL_DeInit c tr = tr ↔ c = noSelection) ∧
    (tr.length + 1 ≤ (GNSE_HAL_Init c tr).length ↔ c ≠ noSelection) ∧
    (tr.length + 1 ≤ (GNSE_HAL_DeInit c tr).length ↔ c ≠ noSelection) := by
  rw [GNSE_HAL_Init_append c tr, GNSE_HAL_DeInit_append c tr]
  simp only [List.length_append, List.append_right_eq_self, Nat.add_le_add_iff_left]
  rcases c with ⟨a, b, d, e, f, g⟩
  cases a <;> cases b <;> cases d <;> cases e <;> cases f <;> cases g <;> decide

/-! ## Sequencer identifier spaces -/

/-- C10: the priority identifiers are exactly `CFG_SEQ_Prio_0`, of value 0,
with `CFG_SEQ_Prio_NBR` of value 1; the task identifiers are exactly
`CFG_SEQ_Task_LmHandlerProcess`, of value 0, and
`CFG_SEQ_Task_LoRaSendOnTxTimerOrButtonEvent`, of value 1, with
`CFG_SEQ_Task_NBR` of value 2. In each space the values of the live
identifiers are pairwise distinct, are exactly the numbers below the count in
increasing order, are all at most 31, and the count is none of them; every
enumerator of a space is its count or one of its live identifiers. -/
theorem C10_identifier_spaces :
    (live_prio = [.CFG_SEQ_Prio_0] ∧
      (∀ x : CFG_SEQ_Prio_Id_t, x = .CFG_SEQ_Prio_NBR ∨ x ∈ live_prio) ∧
      CFG_SEQ_Prio_Id_t.CFG_SEQ_Prio_0.val = 0 ∧
      CFG_SEQ_Prio_Id_t.CFG_SEQ_Prio_NBR.val = 1 ∧
      (live_prio.map CFG_SEQ_Prio_Id_t.val).Nodup ∧
      live_prio.map CFG_SEQ_Prio_Id_t.val
        = List.range CFG_SEQ_Prio_Id_t.CFG_SEQ_Prio_NBR.val ∧
      (∀ v ∈ live_prio.map CFG_SEQ_Prio_Id_t.val, v ≤ 31) ∧
      CFG_SEQ_Prio_Id_t.CFG_SEQ_Prio_NBR.val ∉ live_prio.map CFG_SEQ_Prio_Id_t.val) ∧
    (live_task =
        [.CFG_SEQ_Task_LmHandlerProcess, .CFG_SEQ_Task_LoRaSendOnTxTimerOrButtonEvent] ∧
      (∀ x : CFG_SEQ_Task_Id_t, x = .CFG_SEQ_Task_NBR ∨ x ∈ live_task) ∧
      CFG_SEQ_Task_Id_t.CFG_SEQ_Task_LmHandlerProcess.val = 0 ∧
      CFG_SEQ_Task_Id_t.CFG_SEQ_Task_LoRaSendOnTxTimerOrButtonEvent.val = 1 ∧
      CFG_SEQ_Task_Id_t.CFG_SEQ_Task_NBR.val = 2 ∧
      (live_task.map CFG_SEQ_Task_Id_t.val).Nodup ∧
      live_task.map CFG_SEQ_Task_Id_t.val
        = List.range CFG_SEQ_Task_Id_t.CFG_SEQ_Task_NBR.val ∧
      (∀ v ∈ live_task.map CFG_SEQ_Task_Id_t.val, v ≤ 31) ∧
      CFG_SEQ_Task_Id_t.CFG_SEQ_Task_NBR.val ∉ live_task.map CFG_SEQ_Task_Id_t.val) := by
  decide

end GNSE
